import Mathlib

/-!
# Verification of the `nextjs-zidentity` session / flow-state engine

Shallow embedding of the repository's configuration resolution
(`src/config.ts`), the low-level cookie helper and SDK instance module
(`src/unnamed/part_003`), and — for the parts of the repository whose
source files are not in the snapshot (the `zsession` / `session` /
`handlers` modules) — models written from the specification, each marked
`Modelled from the spec:` in its doc comment.

JavaScript idioms are embedded as follows: `undefined`-able values become
`Option`, object-spread precedence becomes `overrideOpt` (later spread
wins), the `||` operator on strings becomes `jsOrStr` (empty string is
falsy), and numeric coercion (`+s`, `Number(s)`) is abstracted by
`jsToNumber` / `jsIsNaN` (no claim depends on the numeric value, only on
whether coercion is applied).
-/

namespace ZConfig

/-- JS object-spread precedence for one field: `{ ...e, ...p }` keeps `p`'s
value when the key is present, otherwise `e`'s. -/
def overrideOpt (p e : Option α) : Option α :=
  match p with
  | some v => some v
  | none => e

/-- JS `a || b` on an optional string: `undefined` and `""` are falsy. -/
def jsOrStr (a b : Option String) : Option String :=
  match a with
  | some s => if s = "" then b else some s
  | none => b

/-- JS whitespace characters relevant to `String.prototype.trim` (ASCII
part). -/
def jsWhitespace (c : Char) : Bool :=
  c == ' ' || c == '\t' || c == '\n' || c == '\r' || c == '\x0b' || c == '\x0c'

/-- ASCII lowercasing of one character — the fragment of JS `toLowerCase`
relevant to comparisons against the all-ASCII `FALSEY` list. -/
def jsCharToLower (c : Char) : Char :=
  if 'A' ≤ c ∧ c ≤ 'Z' then Char.ofNat (c.toNat + 32) else c

/-- Model of JS `String.prototype.toLowerCase` (ASCII fragment). -/
def jsToLower (s : String) : String :=
  ⟨s.data.map jsCharToLower⟩

/-- Model of JS `String.prototype.trim`: drop leading and trailing
whitespace. -/
def jsTrim (s : String) : String :=
  ⟨((s.data.dropWhile jsWhitespace).reverse.dropWhile jsWhitespace).reverse⟩

/-- Model of JS `String.prototype.startsWith` / an anchored `^…` regex
test. -/
def jsStartsWith (s pre : String) : Bool :=
  pre.data.isPrefixOf s.data

/-- Model of JS `String.prototype.endsWith`. -/
def jsEndsWith (s post : String) : Bool :=
  post.data.isSuffixOf s.data

/-- Model of JS unary plus / `Number` on a string, up to the numeric value:
no claim verified here depends on the value produced, only on whether the
coercion is applied at all. -/
def jsToNumber (s : String) : Int :=
  ((jsTrim s).toInt?).getD 0

/-- Model of `isNaN(Number(s))`, up to the same abstraction as
`jsToNumber`. -/
def jsIsNaN (s : String) : Bool :=
  (jsTrim s).toInt?.isNone && jsTrim s ≠ ""

/-- The `FALSEY` list of `src/config.ts` line 383. -/
def FALSEY : List String := ["n", "no", "false", "0", "off"]

/-- The `bool` helper of `src/config.ts` lines 388-392, restricted to its
actual call sites, where `param` is an environment variable
(`string | undefined`): `undefined` or `''` yields the default; a non-empty
string is truthy, so the second branch returns
`!FALSEY.includes(param.toLowerCase().trim())`. -/
def bool (param : Option String) (defaultValue : Option Bool) : Option Bool :=
  match param with
  | none => defaultValue
  | some s =>
    if s = "" then defaultValue
    else some (!FALSEY.contains (jsTrim (jsToLower s)))

/-- The `num` helper of `src/config.ts` line 397. -/
def num (param : Option String) : Option Int :=
  match param with
  | none => none
  | some s => if s = "" then none else some (jsToNumber s)

/-- The process environment read by `getConfig` (`src/config.ts` lines
411-436); each variable is `string | undefined`. -/
structure EnvVars where
  ZAUTH_SECRET : Option String := none
  ZAUTH_ISSUER_BASE_URL : Option String := none
  ZAUTH_BASE_URL : Option String := none
  ZAUTH_CLIENT_ID : Option String := none
  ZAUTH_CLIENT_SECRET : Option String := none
  ZAUTH_CLOCK_TOLERANCE : Option String := none
  ZAUTH_HTTP_TIMEOUT : Option String := none
  ZAUTH_ENABLE_TELEMETRY : Option String := none
  ZAUTH_IDP_LOGOUT : Option String := none
  ZAUTH_ID_TOKEN_SIGNING_ALG : Option String := none
  ZAUTH_LEGACY_SAME_SITE_COOKIE : Option String := none
  ZAUTH_CALLBACK : Option String := none
  ZAUTH_POST_LOGOUT_REDIRECT : Option String := none
  ZAUTH_AUDIENCE : Option String := none
  ZAUTH_SCOPE : Option String := none
  ZAUTH_ORGANIZATION : Option String := none
  ZAUTH_SESSION_NAME : Option String := none
  ZAUTH_SESSION_ROLLING : Option String := none
  ZAUTH_SESSION_ROLLING_DURATION : Option String := none
  ZAUTH_SESSION_ABSOLUTE_DURATION : Option String := none
  ZAUTH_COOKIE_DOMAIN : Option String := none
  ZAUTH_COOKIE_PATH : Option String := none
  ZAUTH_COOKIE_TRANSIENT : Option String := none
  ZAUTH_COOKIE_HTTP_ONLY : Option String := none
  ZAUTH_COOKIE_SECURE : Option String := none
  ZAUTH_COOKIE_SAME_SITE : Option String := none
  NEXT_PUBLIC_ZAUTH_LOGIN : Option String := none
deriving DecidableEq

/-- `SessionConfig.absoluteDuration` is `boolean | number`. -/
inductive BoolOrNum where
  | b (v : Bool)
  | n (v : Int)
deriving DecidableEq, Repr

/-- Caller-supplied `ConfigParameters.session.cookie` (deep-partial). -/
structure CookieConfigParams where
  domain : Option String := none
  path : Option String := none
  transient : Option Bool := none
  httpOnly : Option Bool := none
  secure : Option Bool := none
  sameSite : Option String := none
deriving DecidableEq

/-- Caller-supplied `ConfigParameters.session` (deep-partial). -/
structure SessionConfigParams where
  name : Option String := none
  rolling : Option Bool := none
  rollingDuration : Option Int := none
  absoluteDuration : Option BoolOrNum := none
  cookie : Option CookieConfigParams := none
deriving DecidableEq

/-- Caller-supplied `ConfigParameters.authorizationParams` (deep-partial). -/
structure AuthParams where
  response_type : Option String := none
  response_mode : Option String := none
  scope : Option String := none
  audience : Option String := none
deriving DecidableEq

/-- Caller-supplied `ConfigParameters.routes` (deep-partial); `login` is the
Next-layer route, `callback`/`postLogoutRedirect` the base-layer ones. -/
structure RoutesParams where
  callback : Option String := none
  postLogoutRedirect : Option String := none
  login : Option String := none
deriving DecidableEq

/-- Caller-supplied explicit `ConfigParameters` (`src/config.ts` line 378),
deep-partial over `BaseConfig & NextConfig`.  The function-valued field
`getLoginState` is omitted: no claim concerns it. -/
structure ConfigParameters where
  secret : Option String := none
  issuerBaseURL : Option String := none
  baseURL : Option String := none
  clientID : Option String := none
  clientSecret : Option String := none
  clockTolerance : Option Int := none
  httpTimeout : Option Int := none
  enableTelemetry : Option Bool := none
  idpLogout : Option Bool := none
  zAuthLogout : Option Bool := none
  idTokenSigningAlg : Option String := none
  legacySameSiteCookie : Option Bool := none
  identityClaimFilter : Option (List String) := none
  organization : Option String := none
  authorizationParams : Option AuthParams := none
  session : Option SessionConfigParams := none
  routes : Option RoutesParams := none
deriving DecidableEq

/-- The merged cookie object built at `src/config.ts` lines 472-480. -/
structure MergedCookieConfig where
  domain : Option String
  path : Option String
  transient : Option Bool
  httpOnly : Option Bool
  secure : Option Bool
  sameSite : Option String
deriving DecidableEq

/-- The merged session object built at `src/config.ts` lines 463-481. -/
structure MergedSessionConfig where
  name : Option String
  rolling : Option Bool
  rollingDuration : Option Int
  absoluteDuration : Option BoolOrNum
  cookie : MergedCookieConfig
deriving DecidableEq

/-- The merged `authorizationParams` object built at `src/config.ts` lines
457-462. -/
structure MergedAuthParams where
  response_type : Option String
  response_mode : Option String
  scope : Option String
  audience : Option String
deriving DecidableEq

/-- The merged `routes` object built at `src/config.ts` lines 482-485. -/
structure MergedRoutes where
  callback : Option String
  postLogoutRedirect : Option String
deriving DecidableEq

/-- The fully merged object `getConfig` passes to the base layer's
`getBaseConfig` (`src/config.ts` lines 443-486).  `getBaseConfig` itself
lives in the `zauth-session` module, which is not in the snapshot; per the
spec (layered resolution, design note 2) it only fills defaults for absent
fields and validates, leaving every supplied field unchanged, so the
precedence claims are decided by this merged object. -/
structure BaseConfigInput where
  secret : Option String
  issuerBaseURL : Option String
  baseURL : Option String
  clientID : Option String
  clientSecret : Option String
  clockTolerance : Option Int
  httpTimeout : Option Int
  enableTelemetry : Option Bool
  idpLogout : Option Bool
  zAuthLogout : Option Bool
  idTokenSigningAlg : Option String
  legacySameSiteCookie : Option Bool
  identityClaimFilter : Option (List String)
  authorizationParams : MergedAuthParams
  session : MergedSessionConfig
  routes : MergedRoutes
deriving DecidableEq

/-- The `nextConfig` record built at `src/config.ts` lines 488-495. -/
structure NextConfigModel where
  loginRoute : Option String
  callback : Option String
  postLogoutRedirect : Option String
  identityClaimFilter : Option (List String)
  organization : Option String
deriving DecidableEq

/-- `getLoginUrl` (`src/config.ts` lines 402-404):
`process.env.NEXT_PUBLIC_ZAUTH_LOGIN || '/api/auth/login'`. -/
def getLoginUrl (env : EnvVars) : Option String :=
  jsOrStr env.NEXT_PUBLIC_ZAUTH_LOGIN (some "/api/auth/login")

/-- The env-derived `baseURL` of `src/config.ts` lines 438-439:
`ZAUTH_BASE_URL && !/^https?:\/\//.test(ZAUTH_BASE_URL)
  ? https:// + ZAUTH_BASE_URL : ZAUTH_BASE_URL`. -/
def jsBaseURL (e : Option String) : Option String :=
  match e with
  | none => none
  | some s =>
    if s = "" then some s
    else if jsStartsWith s "http://" || jsStartsWith s "https://" then some s
    else some ("https://" ++ s)

/-- The env-derived `session.absoluteDuration` of `src/config.ts` lines
467-470: `V && isNaN(Number(V)) ? bool(V) : num(V)`. -/
def envAbsoluteDuration (e : Option String) : Option BoolOrNum :=
  match e with
  | none => (num none).map BoolOrNum.n
  | some s =>
    if s = "" then (num (some s)).map BoolOrNum.n
    else if jsIsNaN s then (bool (some s) none).map BoolOrNum.b
    else (num (some s)).map BoolOrNum.n

/-- Cookie params reached through `baseParams.session?.cookie`. -/
def sessionCookieParams (params : ConfigParameters) : CookieConfigParams :=
  match params.session with
  | none => {}
  | some s => s.cookie.getD {}

/-- Session params reached through `baseParams.session`. -/
def sessionParams (params : ConfigParameters) : SessionConfigParams :=
  params.session.getD {}

/-- Authorization params reached through `baseParams.authorizationParams`. -/
def authParamsOf (params : ConfigParameters) : AuthParams :=
  params.authorizationParams.getD {}

/-- Routes params reached through `baseParams.routes?.…`. -/
def routesParamsOf (params : ConfigParameters) : RoutesParams :=
  params.routes.getD {}

/-- `getConfig` (`src/config.ts` lines 409-498), with the process
environment passed explicitly.  Field order and merge direction follow the
source object literals: env-derived values first, then
`...baseParams` / `...baseParams.session` / `...baseParams.session?.cookie`
/ `...baseParams.authorizationParams` spread over them, and the `routes` /
`organization` fields merged with JS `||`.  `organization` is destructured
out of `baseParams` (line 441) and only appears in `nextConfig`. -/
def getConfig (env : EnvVars) (params : ConfigParameters) :
    BaseConfigInput × NextConfigModel :=
  let baseURL := jsBaseURL env.ZAUTH_BASE_URL
  let cookieP := sessionCookieParams params
  let sessP := sessionParams params
  let authP := authParamsOf params
  let routesP := routesParamsOf params
  let mergedRoutes : MergedRoutes :=
    { callback := jsOrStr (jsOrStr routesP.callback env.ZAUTH_CALLBACK) (some "/api/auth/callback")
      postLogoutRedirect := jsOrStr routesP.postLogoutRedirect env.ZAUTH_POST_LOGOUT_REDIRECT }
  let baseConfig : BaseConfigInput :=
    { secret := overrideOpt params.secret env.ZAUTH_SECRET
      issuerBaseURL := overrideOpt params.issuerBaseURL env.ZAUTH_ISSUER_BASE_URL
      baseURL := overrideOpt params.baseURL baseURL
      clientID := overrideOpt params.clientID env.ZAUTH_CLIENT_ID
      clientSecret := overrideOpt params.clientSecret env.ZAUTH_CLIENT_SECRET
      clockTolerance := overrideOpt params.clockTolerance (num env.ZAUTH_CLOCK_TOLERANCE)
      httpTimeout := overrideOpt params.httpTimeout (num env.ZAUTH_HTTP_TIMEOUT)
      enableTelemetry := overrideOpt params.enableTelemetry (bool env.ZAUTH_ENABLE_TELEMETRY none)
      idpLogout := overrideOpt params.idpLogout (bool env.ZAUTH_IDP_LOGOUT (some true))
      zAuthLogout := overrideOpt params.zAuthLogout (bool env.ZAUTH_IDP_LOGOUT (some true))
      idTokenSigningAlg := overrideOpt params.idTokenSigningAlg env.ZAUTH_ID_TOKEN_SIGNING_ALG
      legacySameSiteCookie :=
        overrideOpt params.legacySameSiteCookie (bool env.ZAUTH_LEGACY_SAME_SITE_COOKIE none)
      identityClaimFilter := params.identityClaimFilter
      authorizationParams :=
        { response_type := overrideOpt authP.response_type (some "code")
          response_mode := authP.response_mode
          scope := overrideOpt authP.scope env.ZAUTH_SCOPE
          audience := overrideOpt authP.audience env.ZAUTH_AUDIENCE }
      session :=
        { name := overrideOpt sessP.name env.ZAUTH_SESSION_NAME
          rolling := overrideOpt sessP.rolling (bool env.ZAUTH_SESSION_ROLLING none)
          rollingDuration :=
            overrideOpt sessP.rollingDuration (num env.ZAUTH_SESSION_ROLLING_DURATION)
          absoluteDuration :=
            overrideOpt sessP.absoluteDuration (envAbsoluteDuration env.ZAUTH_SESSION_ABSOLUTE_DURATION)
          cookie :=
            { domain := overrideOpt cookieP.domain env.ZAUTH_COOKIE_DOMAIN
              path := overrideOpt cookieP.path (jsOrStr env.ZAUTH_COOKIE_PATH (some "/"))
              transient := overrideOpt cookieP.transient (bool env.ZAUTH_COOKIE_TRANSIENT none)
              httpOnly := overrideOpt cookieP.httpOnly (bool env.ZAUTH_COOKIE_HTTP_ONLY none)
              secure := overrideOpt cookieP.secure (bool env.ZAUTH_COOKIE_SECURE none)
              sameSite := overrideOpt cookieP.sameSite env.ZAUTH_COOKIE_SAME_SITE } }
      routes := mergedRoutes }
  let nextConfig : NextConfigModel :=
    { loginRoute := jsOrStr routesP.login (getLoginUrl env)
      callback := mergedRoutes.callback
      postLogoutRedirect := mergedRoutes.postLogoutRedirect
      identityClaimFilter := baseConfig.identityClaimFilter
      organization := jsOrStr params.organization env.ZAUTH_ORGANIZATION }
  (baseConfig, nextConfig)

end ZConfig

namespace ZCookies

/-- Serialization options of the external `cookie` package
(`CookieSerializeOptions`), restricted to the attributes the repository
uses. -/
structure CookieSerializeOptions where
  domain : Option String := none
  path : Option String := none
  maxAge : Option Int := none
  httpOnly : Bool := false
  secure : Bool := false
  sameSite : Option String := none
deriving DecidableEq

/-- Model of the external `cookie` package's `serialize(name, value,
options)`: one `name=value` pair followed by attribute directives.  The
claims verified here depend only on which serialized strings appear in the
response, not on this textual shape. -/
def serialize (name value : String) (options : CookieSerializeOptions) : String :=
  name ++ "=" ++ value
    ++ (match options.maxAge with | none => "" | some a => "; Max-Age=" ++ toString a)
    ++ (match options.domain with | none => "" | some d => "; Domain=" ++ d)
    ++ (match options.path with | none => "" | some p => "; Path=" ++ p)
    ++ (if options.httpOnly then "; HttpOnly" else "")
    ++ (if options.secure then "; Secure" else "")
    ++ (match options.sameSite with | none => "" | some s => "; SameSite=" ++ s)

/-- A Node response header value: `undefined`, a single string, or a string
array — the three shapes `res.getHeader('Set-Cookie')` can take. -/
inductive HeaderValue where
  | absent
  | single (s : String)
  | multi (l : List String)
deriving DecidableEq

/-- `res.getHeader('Set-Cookie') || []` followed by the array-wrapping of
`src/unnamed/part_003` lines 167-170. -/
def headerList : HeaderValue → List String
  | .absent => []
  | .single s => [s]
  | .multi l => l

/-- A `ServerResponse`, split into its `Set-Cookie` header and everything
else (`rest`: status code, body, other headers), which `set` never
touches. -/
structure ServerResponse (ρ : Type) where
  setCookieHeader : HeaderValue
  rest : ρ
deriving DecidableEq

/-- The `set` helper of `src/unnamed/part_003` lines 164-173: serialize the
cookie, read the previous `Set-Cookie` values (wrapping a lone string into
an array), and set the header to the previous values plus the new cookie. -/
def set (res : ServerResponse ρ) (name value : String)
    (options : CookieSerializeOptions := {}) : ServerResponse ρ :=
  let strCookie := serialize name value options
  let previousCookies := headerList res.setCookieHeader
  { res with setCookieHeader := .multi (previousCookies ++ [strCookie]) }

/-- The `clear` helper of `src/unnamed/part_003` lines 175-177. -/
def clear (res : ServerResponse ρ) (name : String)
    (options : CookieSerializeOptions := {}) : ServerResponse ρ :=
  set res name "" { options with maxAge := some 0 }

/-- A sequence of cookie-writing calls applied in order. -/
def setAll (res : ServerResponse ρ)
    (calls : List (String × String × CookieSerializeOptions)) : ServerResponse ρ :=
  calls.foldl (fun r c => set r c.1 c.2.1 c.2.2) res

end ZCookies

namespace ZInstance

/-- The SDK instance returned by `initZeusIdentity`, identified by the
allocation ids of the three store objects it constructs
(`src/unnamed/part_003` lines 70-72); the handlers it returns all close
over these. -/
structure SDKInstance where
  transientStoreId : Nat
  cookieStoreId : Nat
  sessionCacheId : Nat
deriving DecidableEq, Repr

/-- `initZeusIdentity` (`src/unnamed/part_003` lines 65-101), reduced to
its allocation behaviour: `new TransientStore`, `new CookieStore`,
`new SessionCache` each draw a fresh id from the allocation counter. -/
def initZeusIdentity (ctr : Nat) : SDKInstance × Nat :=
  ({ transientStoreId := ctr, cookieStoreId := ctr + 1, sessionCacheId := ctr + 2 }, ctr + 3)

/-- `getInstance` (`src/unnamed/part_003` lines 57-63) over the
module-level mutable `instance` variable: return the memoized instance if
present, otherwise build one with `initZeusIdentity` and memoize it.
Returns (instance, new module state, new allocation counter). -/
def getInstance : Option SDKInstance → Nat → SDKInstance × Option SDKInstance × Nat
  | some i, ctr => (i, some i, ctr)
  | none, ctr =>
    let r := initZeusIdentity ctr
    (r.1, some r.1, r.2)

/-- One request served through a named export (`src/unnamed/part_003`
lines 103-112, e.g. `getSession = (...args) => getInstance().getSession(...)`):
the request resolves the module singleton and uses its `SessionCache`.
Returns (id of the SessionCache this request's session operations use,
new module state, new allocation counter). -/
def sessionCacheForRequest (st : Option SDKInstance) (ctr : Nat) :
    Nat × Option SDKInstance × Nat :=
  let r := getInstance st ctr
  (r.1.sessionCacheId, r.2.1, r.2.2)

/-- Modelled from the spec: the per-request memoization table of
`SessionCache` (spec section 4.4 "memoizes result so repeated calls within
the same request never re-decrypt" and section 5 "scoped to one request
object"); the source file `session/cache.ts` is not in the snapshot.
Entries are keyed by request identity. -/
def MemoTable (σ : Type) := List (Nat × σ)

/-- Modelled from the spec: look up the memoized session payload for one
request object. -/
def memoLookup (t : MemoTable σ) (reqId : Nat) : Option σ :=
  match t with
  | [] => none
  | (k, v) :: rest => if k = reqId then some v else memoLookup rest reqId

/-- Modelled from the spec: memoize a session payload for one request
object. -/
def memoInsert (t : MemoTable σ) (reqId : Nat) (v : σ) : MemoTable σ :=
  (reqId, v) :: t

end ZInstance

namespace ZSession

/-- Modelled from the spec: `SessionPayload` (spec section 3); the
`zsession` module holding the concrete type is not in the snapshot.
Identity claims are a string-keyed mapping; claim values are taken as
strings (spec design note 3 asks exactly for replacing the open `any` by a
concrete value type). -/
structure SessionPayload where
  identityClaims : List (String × String)
  accessToken : Option String := none
  refreshToken : Option String := none
  idToken : Option String := none
  tokenType : Option String := none
  expiresAt : Option Nat := none
  createdAt : Nat
deriving DecidableEq, Repr

end ZSession

namespace ZCodec

/-- Modelled from the spec: one step of "serialize payload to a compact
byte form" (spec section 4.2) — a string as its length followed by its
character codes. -/
def encodeStr (s : String) : List Nat :=
  s.length :: s.data.map Char.toNat

/-- Decoder for `encodeStr`, returning the string and the remaining
bytes. -/
def decodeStr (l : List Nat) : Option (String × List Nat) :=
  match l with
  | [] => none
  | n :: rest =>
    if n ≤ rest.length then
      some (String.mk ((rest.take n).map Char.ofNat), rest.drop n)
    else none

/-- Optional-string field: a presence tag followed by the string. -/
def encodeOptStr : Option String → List Nat
  | none => [0]
  | some s => 1 :: encodeStr s

/-- Decoder for `encodeOptStr`. -/
def decodeOptStr (l : List Nat) : Option (Option String × List Nat) :=
  match l with
  | 0 :: rest => some (none, rest)
  | 1 :: rest => (decodeStr rest).map (fun p => (some p.1, p.2))
  | _ => none

/-- Optional-number field: a presence tag followed by the number. -/
def encodeOptNat : Option Nat → List Nat
  | none => [0]
  | some n => [1, n]

/-- Decoder for `encodeOptNat`. -/
def decodeOptNat (l : List Nat) : Option (Option Nat × List Nat) :=
  match l with
  | 0 :: rest => some (none, rest)
  | 1 :: n :: rest => some (some n, rest)
  | _ => none

/-- One identity-claim entry: key then value. -/
def encodePair (kv : String × String) : List Nat :=
  encodeStr kv.1 ++ encodeStr kv.2

/-- The identity-claims mapping: entry count, then the entries. -/
def encodeClaims (l : List (String × String)) : List Nat :=
  l.length :: (l.map encodePair).flatten

/-- Decoder for the body of `encodeClaims`: read `n` key/value pairs. -/
def decodeClaimsGo : Nat → List Nat → Option (List (String × String) × List Nat)
  | 0, l => some ([], l)
  | n + 1, l =>
    match decodeStr l with
    | none => none
    | some (k, r1) =>
      match decodeStr r1 with
      | none => none
      | some (v, r2) =>
        match decodeClaimsGo n r2 with
        | none => none
        | some (tail, r3) => some ((k, v) :: tail, r3)

/-- Decoder for `encodeClaims`. -/
def decodeClaims (l : List Nat) : Option (List (String × String) × List Nat) :=
  match l with
  | [] => none
  | n :: rest => decodeClaimsGo n rest

/-- Modelled from the spec: the compact serialized form of a
`SessionPayload` (spec sections 3 and 4.2). -/
def encodePayload (p : ZSession.SessionPayload) : List Nat :=
  encodeClaims p.identityClaims ++ encodeOptStr p.accessToken
    ++ encodeOptStr p.refreshToken ++ encodeOptStr p.idToken
    ++ encodeOptStr p.tokenType ++ encodeOptNat p.expiresAt ++ [p.createdAt]

/-- Decoder for `encodePayload`; the whole input must be consumed. -/
def decodePayload (l : List Nat) : Option ZSession.SessionPayload :=
  match decodeClaims l with
  | none => none
  | some (claims, r1) =>
    match decodeOptStr r1 with
    | none => none
    | some (at_, r2) =>
      match decodeOptStr r2 with
      | none => none
      | some (rt, r3) =>
        match decodeOptStr r3 with
        | none => none
        | some (idt, r4) =>
          match decodeOptStr r4 with
          | none => none
          | some (tt, r5) =>
            match decodeOptNat r5 with
            | none => none
            | some (exp_, r6) =>
              match r6 with
              | [created] =>
                some { identityClaims := claims, accessToken := at_, refreshToken := rt,
                       idToken := idt, tokenType := tt, expiresAt := exp_, createdAt := created }
              | _ => none

/-- Modelled from the spec: `Cipher.encrypt` (spec section 4.1) —
authenticated encryption abstracted as a container tagged with the nonce
and the authenticating secret. -/
def encrypt (nonce secret : Nat) (plaintext : List Nat) : List Nat :=
  nonce :: secret :: plaintext

/-- Modelled from the spec: `Cipher.decrypt` (spec section 4.1) — try the
secrets; a blob authenticates exactly under the secret it was produced
with, and if no secret authenticates the result is `AuthFailure`
(`none`). -/
def decrypt (secrets : List Nat) (blob : List Nat) : Option (List Nat) :=
  match blob with
  | _ :: k :: pt => if secrets.contains k then some pt else none
  | _ => none

/-- Fixed-size chunking, fuelled by the input length (chunk extraction
strictly shrinks the list when the chunk size is positive). -/
def chunksOfGo (n : Nat) : Nat → List α → List (List α)
  | _, [] => []
  | 0, _ :: _ => []
  | fuel + 1, x :: xs => (x :: xs).take n :: chunksOfGo n fuel ((x :: xs).drop n)

/-- Modelled from the spec: "split into fixed-size chunks" (spec section
4.2). -/
def chunksOf (n : Nat) (l : List α) : List (List α) :=
  chunksOfGo n l.length l

/-- A cookie name: either the bare session name or a chunk name
`<name>.i` (spec section 3, CookieEnvelope), in structured form. -/
inductive CookieName where
  | plain (name : String)
  | chunk (name : String) (idx : Nat)
deriving DecidableEq, Repr

/-- Look a cookie up by name. -/
def lookupJar : List (CookieName × List Nat) → CookieName → Option (List Nat)
  | [], _ => none
  | (k, v) :: rest, key => if k = key then some v else lookupJar rest key

/-- Emit chunk cookies `<name>.start`, `<name>.(start+1)`, … for the given
chunk contents. -/
def mkChunkJar (name : String) : List (List Nat) → Nat → List (CookieName × List Nat)
  | [], _ => []
  | c :: rest, i => (CookieName.chunk name i, c) :: mkChunkJar name rest (i + 1)

/-- Gather sequential chunk cookies `<name>.i`, `<name>.(i+1)`, …,
concatenating in index order and stopping at the first missing index (spec
section 4.2: chunk count is implicit in the presence of sequential
indices). -/
def gatherGo (jar : List (CookieName × List Nat)) (name : String) :
    Nat → Nat → List Nat
  | 0, _ => []
  | fuel + 1, i =>
    match lookupJar jar (CookieName.chunk name i) with
    | none => []
    | some c => c ++ gatherGo jar name fuel (i + 1)

/-- Configuration of the cookie codec: session cookie name and the
single-cookie size budget (spec section 4.2). -/
structure CookieStoreConfig where
  sessionName : String
  budget : Nat

/-- Modelled from the spec: `CookieCodec.write` (spec section 4.2) —
serialize, encrypt, and either emit one cookie under the bare name or
split into fixed-size chunks emitted as `<name>.i`.  The source file
(`zsession` CookieStore) is not in the snapshot. -/
def write (cfg : CookieStoreConfig) (secret nonce : Nat)
    (payload : ZSession.SessionPayload) : List (CookieName × List Nat) :=
  let blob := encrypt nonce secret (encodePayload payload)
  if blob.length ≤ cfg.budget then
    [(CookieName.plain cfg.sessionName, blob)]
  else
    mkChunkJar cfg.sessionName (chunksOf cfg.budget blob) 0

/-- The encrypted blob carried by the jar for the session name: prefer the
unchunked cookie if present, else gather all sequential chunks (an empty
gather means the session cookie is absent). -/
def readBlob (cfg : CookieStoreConfig)
    (jar : List (CookieName × List Nat)) : Option (List Nat) :=
  match lookupJar jar (CookieName.plain cfg.sessionName) with
  | some b => some b
  | none =>
    match gatherGo jar cfg.sessionName jar.length 0 with
    | [] => none
    | c :: rest => some (c :: rest)

/-- Modelled from the spec: `CookieCodec.read` (spec section 4.2) — prefer
the unchunked cookie if present, else gather all sequential chunks;
decrypt and deserialize; any failure yields absent (`none`). -/
def read (cfg : CookieStoreConfig) (secrets : List Nat)
    (jar : List (CookieName × List Nat)) : Option ZSession.SessionPayload :=
  match readBlob cfg jar with
  | none => none
  | some b =>
    match decrypt secrets b with
    | none => none
    | some pt => decodePayload pt

end ZCodec

namespace ZCallback

/-- Modelled from the spec: the transient values stashed at login time
(spec sections 3 and 4.3); the `zsession` TransientStore source is not in
the snapshot. -/
structure TransientState where
  state : Option String := none
  nonce : Option String := none
  codeVerifier : Option String := none
  returnTo : Option String := none
deriving DecidableEq

/-- The callback request's relevant query parameters. -/
structure CallbackRequest where
  queryState : Option String := none
  queryCode : Option String := none
deriving DecidableEq

/-- Errors the callback can fail closed with (spec section 7). -/
inductive CallbackError where
  | transientStateMissing
  | csrfStateMismatch
  | tokenExchangeFailure
deriving DecidableEq, Repr

/-- Observable outcome of the callback: the result (redirect target or
error), how many times `SessionCache.establish` was called, and the
session cookie on the response afterwards. -/
structure CallbackOutcome where
  result : Except CallbackError String
  establishCalls : Nat
  sessionCookie : Option ZSession.SessionPayload

/-- Modelled from the spec: `FlowController.callback` (spec section 4.5)
— read and consume the TransientStore, verify the returned `state` matches
the stored value exactly (failing closed otherwise), exchange the code via
the external OIDC capability, establish the session and redirect to the
stored `returnTo`.  The handler source is not in the snapshot.  The
external code exchange is a parameter; `resCookieBefore` is the response's
session cookie before the callback runs. -/
def callback (exchange : String → Option ZSession.SessionPayload)
    (ts : TransientState) (req : CallbackRequest)
    (resCookieBefore : Option ZSession.SessionPayload) : CallbackOutcome :=
  match ts.state with
  | none => ⟨.error .transientStateMissing, 0, resCookieBefore⟩
  | some expected =>
    match req.queryState with
    | none => ⟨.error .csrfStateMismatch, 0, resCookieBefore⟩
    | some got =>
      if got = expected then
        match req.queryCode with
        | none => ⟨.error .tokenExchangeFailure, 0, resCookieBefore⟩
        | some code =>
          match exchange code with
          | none => ⟨.error .tokenExchangeFailure, 0, resCookieBefore⟩
          | some payload => ⟨.ok (ts.returnTo.getD "/"), 1, some payload⟩
      else ⟨.error .csrfStateMismatch, 0, resCookieBefore⟩

end ZCallback

namespace ZToken

/-- Tokens returned by the external refresh capability (spec section 6). -/
structure RefreshedTokens where
  accessToken : String
  refreshToken : Option String := none
  expiresAt : Option Nat := none
deriving DecidableEq

/-- Errors `getAccessToken` can fail with (spec sections 4.5 and 7). -/
inductive AccessTokenError where
  | missingSession
  | missingAccessToken
  | tokenExpired
  | refreshFailure
deriving DecidableEq, Repr

/-- Observable outcome of `getAccessToken`: the result, the number of
calls made to the external refresh capability, and the session afterwards. -/
structure AccessTokenOutcome where
  result : Except AccessTokenError String
  refreshCalls : Nat
  updatedSession : Option ZSession.SessionPayload

/-- Modelled from the spec: `getAccessToken` (spec sections 4.5 and 8; the
`session/` module holding `accessTokenFactory` is not in the snapshot) —
read the current session; if `expiresAt` is within the clock-tolerance
window of `now` (or already passed) and a refresh token is present, call
the external refresh capability once and update the session with the new
tokens; if the token is expired and no refresh token is present, fail with
`TokenExpired` making no call.  The refresh capability is a parameter and
its invocations are counted. -/
def getAccessToken (clockTolerance : Nat)
    (refresh : String → Option RefreshedTokens) (now : Nat)
    (session : Option ZSession.SessionPayload) : AccessTokenOutcome :=
  match session with
  | none => ⟨.error .missingSession, 0, none⟩
  | some s =>
    match s.accessToken with
    | none => ⟨.error .missingAccessToken, 0, some s⟩
    | some tok =>
      let expired : Bool :=
        match s.expiresAt with
        | none => false
        | some e => decide (e ≤ now + clockTolerance)
      if expired then
        match s.refreshToken with
        | none => ⟨.error .tokenExpired, 0, some s⟩
        | some rt =>
          match refresh rt with
          | none => ⟨.error .refreshFailure, 1, some s⟩
          | some fresh =>
            ⟨.ok fresh.accessToken, 1,
              some { s with
                accessToken := some fresh.accessToken
                refreshToken := match fresh.refreshToken with
                  | some r => some r
                  | none => s.refreshToken
                expiresAt := fresh.expiresAt }⟩
      else ⟨.ok tok, 0, some s⟩

end ZToken

namespace ZLogout

/-- Drop one trailing slash from an issuer URL. -/
def stripTrailingSlash (s : String) : String :=
  if ZConfig.jsEndsWith s "/" then ⟨s.data.dropLast⟩ else s

/-- Modelled from the spec: the issuer-string matching the source uses to
decide the IdP-specific logout URL shape (spec design note 4: "toggles an
IdP-specific logout URL shape based on issuer-string matching"); the
concrete match is taken from the test fixture
(`src/tests/zsession/client.test.ts` lines 103-116), whose Zeus issuer is
`https://zeus.zidentity.io/`. -/
def isZeusIssuer (s : String) : Bool :=
  ZConfig.jsEndsWith (stripTrailingSlash s) ".zidentity.io"

/-- The slice of client configuration the end-session URL depends on. -/
structure ClientConfig where
  clientID : String
  idpLogout : Bool
deriving DecidableEq

/-- Discovery metadata relevant to logout (spec section 6). -/
structure IssuerMetadata where
  issuer : String
  end_session_endpoint : Option String := none
deriving DecidableEq

/-- Modelled from the spec: the end-session URL the logout flow redirects
to (spec section 4.5 and the section 8 scenario; the `zsession`
`clientFactory` source is not in the snapshot).  With IdP logout enabled
and a Zeus issuer the URL takes the proprietary
`<issuer>/v2/logout?returnTo=…&client_id=…` shape even when discovery
reports no `end_session_endpoint`; otherwise the standard
`end_session_endpoint` is used when present. -/
def endSessionUrl (cfg : ClientConfig) (meta : IssuerMetadata)
    (postLogoutRedirect : String) : Option String :=
  if cfg.idpLogout && isZeusIssuer meta.issuer then
    some (stripTrailingSlash meta.issuer ++ "/v2/logout?returnTo="
      ++ postLogoutRedirect ++ "&client_id=" ++ cfg.clientID)
  else
    match meta.end_session_endpoint with
    | none => none
    | some e =>
      some (e ++ "?post_logout_redirect_uri=" ++ postLogoutRedirect
        ++ "&client_id=" ++ cfg.clientID)

end ZLogout

namespace ZCodec

/-- Decoding after encoding a string consumes exactly the encoded bytes. -/
theorem decodeStr_encodeStr (s : String) (r : List Nat) :
    decodeStr (encodeStr s ++ r) = some (s, r) := by
  have hlen : (s.data.map Char.toNat).length = s.length := by
    rw [List.length_map]
    rfl
  simp only [encodeStr, List.cons_append, decodeStr]
  rw [if_pos]
  · have ht : (s.data.map Char.toNat ++ r).take s.length = s.data.map Char.toNat := by
      rw [← hlen, List.take_left]
    have hd : (s.data.map Char.toNat ++ r).drop s.length = r := by
      rw [← hlen, List.drop_left]
    rw [ht, hd, List.map_map]
    have hid : Char.ofNat ∘ Char.toNat = id := funext Char.ofNat_toNat
    rw [hid, List.map_id]
  · rw [List.length_append, hlen]
    exact Nat.le_add_right _ _

/-- Decoding after encoding an optional string consumes exactly the
encoded bytes. -/
theorem decodeOptStr_encodeOptStr (o : Option String) (r : List Nat) :
    decodeOptStr (encodeOptStr o ++ r) = some (o, r) := by
  cases o with
  | none => rfl
  | some s =>
    simp [encodeOptStr, decodeOptStr, List.cons_append, decodeStr_encodeStr]

/-- Decoding after encoding an optional number consumes exactly the
encoded bytes. -/
theorem decodeOptNat_encodeOptNat (o : Option Nat) (r : List Nat) :
    decodeOptNat (encodeOptNat o ++ r) = some (o, r) := by
  cases o with
  | none => rfl
  | some n => rfl

/-- Decoding after encoding a claims list consumes exactly the encoded
bytes. -/
theorem decodeClaimsGo_encode (l : List (String × String)) (r : List Nat) :
    decodeClaimsGo l.length ((l.map encodePair).flatten ++ r) = some (l, r) := by
  induction l generalizing r with
  | nil => rfl
  | cons kv tl ih =>
    simp only [List.length_cons, List.map_cons, List.flatten_cons, decodeClaimsGo,
      encodePair, List.append_assoc, decodeStr_encodeStr, ih]

/-- Decoding after encoding the full claims block consumes exactly the
encoded bytes. -/
theorem decodeClaims_encodeClaims (l : List (String × String)) (r : List Nat) :
    decodeClaims (encodeClaims l ++ r) = some (l, r) := by
  simp only [encodeClaims, List.cons_append, decodeClaims]
  exact decodeClaimsGo_encode l r

/-- The payload serialization round-trips. -/
theorem decodePayload_encodePayload (p : ZSession.SessionPayload) :
    decodePayload (encodePayload p) = some p := by
  simp only [encodePayload, decodePayload, List.append_assoc,
    decodeClaims_encodeClaims, decodeOptStr_encodeOptStr, decodeOptNat_encodeOptNat]

/-- Decryption with any secret set containing the encrypting secret
recovers the plaintext. -/
theorem decrypt_encrypt (secrets : List Nat) (secret nonce : Nat) (pt : List Nat)
    (h : secrets.contains secret = true) :
    decrypt secrets (encrypt nonce secret pt) = some pt := by
  simp only [encrypt, decrypt]
  rw [if_pos h]

/-- Fuelled chunking with enough fuel flattens back to the input. -/
theorem flatten_chunksOfGo (n : Nat) (hn : 0 < n) :
    ∀ (fuel : Nat) (l : List α), l.length ≤ fuel →
      (chunksOfGo n fuel l).flatten = l := by
  intro fuel
  induction fuel with
  | zero =>
    intro l hl
    have : l = [] := List.eq_nil_of_length_eq_zero (Nat.le_zero.mp hl)
    subst this
    rfl
  | succ f ih =>
    intro l hl
    cases l with
    | nil => rfl
    | cons x xs =>
      simp only [chunksOfGo, List.flatten_cons]
      have hd : ((x :: xs).drop n).length ≤ f := by
        simp only [List.length_drop, List.length_cons]
        simp only [List.length_cons] at hl
        omega
      rw [ih ((x :: xs).drop n) hd, List.take_append_drop]

/-- Chunking flattens back to the input when the chunk size is positive. -/
theorem flatten_chunksOf (n : Nat) (hn : 0 < n) (l : List α) :
    (chunksOf n l).flatten = l :=
  flatten_chunksOfGo n hn l.length l (Nat.le_refl _)

/-- A chunk jar holds no cookie under a bare (unchunked) name. -/
theorem lookupJar_mkChunkJar_plain (name m : String) :
    ∀ (cs : List (List Nat)) (start : Nat),
      lookupJar (mkChunkJar name cs start) (CookieName.plain m) = none := by
  intro cs
  induction cs with
  | nil => intro start; rfl
  | cons c tl ih =>
    intro start
    simp [mkChunkJar, lookupJar, ih]

/-- Looking up chunk `start + j` in a chunk jar starting at `start` finds
the `j`-th chunk. -/
theorem lookupJar_mkChunkJar (name : String) :
    ∀ (cs : List (List Nat)) (start j : Nat),
      lookupJar (mkChunkJar name cs start) (CookieName.chunk name (start + j)) = cs[j]? := by
  intro cs
  induction cs with
  | nil => intro start j; simp [mkChunkJar, lookupJar]
  | cons c tl ih =>
    intro start j
    cases j with
    | zero => simp [mkChunkJar, lookupJar]
    | succ k =>
      simp only [mkChunkJar, lookupJar]
      rw [if_neg (by simp [CookieName.chunk.injEq])]
      rw [show start + (k + 1) = (start + 1) + k by omega, ih (start + 1) k]
      simp

/-- A chunk jar has one cookie per chunk. -/
theorem length_mkChunkJar (name : String) :
    ∀ (cs : List (List Nat)) (start : Nat),
      (mkChunkJar name cs start).length = cs.length := by
  intro cs
  induction cs with
  | nil => intro start; rfl
  | cons c tl ih => intro start; simp [mkChunkJar, ih]

/-- Gathering sequential chunks from a chunk jar, starting at index `i`
with enough fuel, recovers the flattened tail of the chunk list. -/
theorem gatherGo_mkChunkJar (name : String) (cs : List (List Nat)) :
    ∀ (fuel i : Nat), cs.length ≤ fuel + i →
      gatherGo (mkChunkJar name cs 0) name fuel i = (cs.drop i).flatten := by
  intro fuel
  induction fuel with
  | zero =>
    intro i hi
    rw [List.drop_eq_nil_of_le (by omega)]
    rfl
  | succ f ih =>
    intro i hi
    have hl := lookupJar_mkChunkJar name cs 0 i
    rw [Nat.zero_add] at hl
    simp only [gatherGo]
    rw [hl]
    cases hc : cs[i]? with
    | none =>
      have hge : cs.length ≤ i := by
        by_contra hlt
        push_neg at hlt
        rw [List.getElem?_eq_getElem hlt] at hc
        exact Option.noConfusion hc
      rw [List.drop_eq_nil_of_le hge]
      rfl
    | some c =>
      have hlt : i < cs.length := by
        by_contra hge
        push_neg at hge
        rw [List.getElem?_eq_none hge] at hc
        exact Option.noConfusion hc
      rw [ih (i + 1) (by omega), List.drop_eq_getElem_cons hlt, List.flatten_cons]
      have : cs[i] = c := by
        have := List.getElem?_eq_getElem hlt
        rw [hc] at this
        exact (Option.some_inj.mp this.symm)
      rw [this]

end ZCodec

/-- C2: for every session payload (the model imposes no hard size cap, so
in particular every payload within the cookie size limits), reading back
the cookies produced by writing it — with a positive single-cookie budget
and a secret set containing the writing secret — returns a payload equal
to the original: `CookieCodec.read (CookieCodec.write payload) = payload`. -/
theorem cookieCodec_read_write_roundtrip (cfg : ZCodec.CookieStoreConfig)
    (secret nonce : Nat) (secrets : List Nat) (p : ZSession.SessionPayload)
    (hb : 0 < cfg.budget) (hs : secrets.contains secret = true) :
    ZCodec.read cfg secrets (ZCodec.write cfg secret nonce p) = some p := by
  have hdec := ZCodec.decrypt_encrypt secrets secret nonce (ZCodec.encodePayload p) hs
  unfold ZCodec.write
  by_cases hle :
      (ZCodec.encrypt nonce secret (ZCodec.encodePayload p)).length ≤ cfg.budget
  · rw [if_pos hle]
    simp only [ZCodec.read, ZCodec.readBlob, ZCodec.lookupJar, if_pos]
    rw [hdec]
    simp [ZCodec.decodePayload_encodePayload]
  · rw [if_neg hle]
    have h1 := ZCodec.lookupJar_mkChunkJar_plain cfg.sessionName cfg.sessionName
      (ZCodec.chunksOf cfg.budget (ZCodec.encrypt nonce secret (ZCodec.encodePayload p))) 0
    have h2 := ZCodec.length_mkChunkJar cfg.sessionName
      (ZCodec.chunksOf cfg.budget (ZCodec.encrypt nonce secret (ZCodec.encodePayload p))) 0
    have h3 := ZCodec.gatherGo_mkChunkJar cfg.sessionName
      (ZCodec.chunksOf cfg.budget (ZCodec.encrypt nonce secret (ZCodec.encodePayload p)))
      (ZCodec.chunksOf cfg.budget (ZCodec.encrypt nonce secret (ZCodec.encodePayload p))).length
      0 (by omega)
    simp only [ZCodec.read, ZCodec.readBlob]
    rw [h1, h2, h3, List.drop_zero, ZCodec.flatten_chunksOf cfg.budget hb]
    simp only [ZCodec.encrypt] at hdec ⊢
    simp [hdec, ZCodec.decodePayload_encodePayload]

/-- Witness for C2: a concrete payload written with budget 3 (forcing
chunking) and secret 7 reads back unchanged under the secret set `[7]`. -/
theorem cookieCodec_read_write_roundtrip_check :
    0 < (3 : Nat) ∧ [7].contains 7 = true ∧
    ZCodec.read ⟨"appSession", 3⟩ [7]
        (ZCodec.write ⟨"appSession", 3⟩ 7 99
          { identityClaims := [("sub", "u1")], accessToken := some "tok", createdAt := 5 }) =
      some { identityClaims := [("sub", "u1")], accessToken := some "tok", createdAt := 5 } :=
  ⟨by decide, by decide,
    cookieCodec_read_write_roundtrip ⟨"appSession", 3⟩ 7 99 [7]
      { identityClaims := [("sub", "u1")], accessToken := some "tok", createdAt := 5 }
      (by decide) (by decide)⟩

/-- C1: whenever the transient store holds a `state` value from login and
the callback request's `state` query parameter differs from it, the
callback fails closed: it returns an error, `SessionCache.establish` is
called zero times, and the response's session cookie is unchanged. -/
theorem callback_state_mismatch_fails_closed
    (exchange : String → Option ZSession.SessionPayload)
    (ts : ZCallback.TransientState) (req : ZCallback.CallbackRequest)
    (before : Option ZSession.SessionPayload) (expected : String)
    (hstored : ts.state = some expected)
    (hmismatch : req.queryState ≠ some expected) :
    (ZCallback.callback exchange ts req before).result =
        .error ZCallback.CallbackError.csrfStateMismatch ∧
    (ZCallback.callback exchange ts req before).establishCalls = 0 ∧
    (ZCallback.callback exchange ts req before).sessionCookie = before := by
  unfold ZCallback.callback
  rw [hstored]
  cases hq : req.queryState with
  | none => exact ⟨rfl, rfl, rfl⟩
  | some got =>
    have hne : got ≠ expected := by
      intro h
      exact hmismatch (by rw [hq, h])
    simp [if_neg hne]

/-- Witness for C1: a concrete mismatching callback fails closed. -/
theorem callback_state_mismatch_fails_closed_check :
    ({ state := some "xyzstate", returnTo := some "/dashboard" } :
        ZCallback.TransientState).state = some "xyzstate" ∧
    ({ queryState := some "forged", queryCode := some "c" } :
        ZCallback.CallbackRequest).queryState ≠ some "xyzstate" ∧
    (ZCallback.callback (fun _ => some { identityClaims := [], createdAt := 0 })
        { state := some "xyzstate", returnTo := some "/dashboard" }
        { queryState := some "forged", queryCode := some "c" } none).result =
      .error ZCallback.CallbackError.csrfStateMismatch ∧
    (ZCallback.callback (fun _ => some { identityClaims := [], createdAt := 0 })
        { state := some "xyzstate", returnTo := some "/dashboard" }
        { queryState := some "forged", queryCode := some "c" } none).establishCalls = 0 ∧
    (ZCallback.callback (fun _ => some { identityClaims := [], createdAt := 0 })
        { state := some "xyzstate", returnTo := some "/dashboard" }
        { queryState := some "forged", queryCode := some "c" } none).sessionCookie = none := by
  refine ⟨rfl, by decide, ?_⟩
  exact callback_state_mismatch_fails_closed
    (fun _ => some { identityClaims := [], createdAt := 0 })
    { state := some "xyzstate", returnTo := some "/dashboard" }
    { queryState := some "forged", queryCode := some "c" } none "xyzstate" rfl (by decide)

/-- C4: for a session whose access-token `expiresAt` lies strictly in the
past: with a refresh token present (and the external refresh capability
succeeding) `getAccessToken` makes exactly one refresh call and returns
the newly issued access token; with no refresh token present it fails with
`TokenExpired` and makes no refresh call. -/
theorem getAccessToken_expired_behaviour
    (clockTolerance : Nat) (refresh : String → Option ZToken.RefreshedTokens)
    (now : Nat) (s : ZSession.SessionPayload) (tok : String) (e : Nat)
    (htok : s.accessToken = some tok) (hexp : s.expiresAt = some e)
    (hpast : e < now) :
    (∀ rt fresh, s.refreshToken = some rt → refresh rt = some fresh →
      (ZToken.getAccessToken clockTolerance refresh now (some s)).result =
          .ok fresh.accessToken ∧
      (ZToken.getAccessToken clockTolerance refresh now (some s)).refreshCalls = 1) ∧
    (s.refreshToken = none →
      (ZToken.getAccessToken clockTolerance refresh now (some s)).result =
          .error ZToken.AccessTokenError.tokenExpired ∧
      (ZToken.getAccessToken clockTolerance refresh now (some s)).refreshCalls = 0) := by
  have hexpired : e ≤ now + clockTolerance := by omega
  constructor
  · intro rt fresh hrt hfresh
    simp [ZToken.getAccessToken, htok, hexp, hrt, hfresh, decide_eq_true hexpired]
  · intro hrt
    simp [ZToken.getAccessToken, htok, hexp, hrt, decide_eq_true hexpired]

/-- Witness for C4: with `expiresAt = now - 1`, a session holding a
refresh token yields one refresh call returning the new token, and a
session without one fails with `TokenExpired` after zero calls. -/
theorem getAccessToken_expired_behaviour_check :
    ((ZToken.getAccessToken 0 (fun _ => some ⟨"newTok", none, some 100⟩) 11
        (some { identityClaims := [], accessToken := some "oldTok",
                refreshToken := some "rt", expiresAt := some 10, createdAt := 0 })).result =
      .ok "newTok" ∧
     (ZToken.getAccessToken 0 (fun _ => some ⟨"newTok", none, some 100⟩) 11
        (some { identityClaims := [], accessToken := some "oldTok",
                refreshToken := some "rt", expiresAt := some 10, createdAt := 0 })).refreshCalls = 1) ∧
    ((ZToken.getAccessToken 0 (fun _ => some ⟨"newTok", none, some 100⟩) 11
        (some { identityClaims := [], accessToken := some "oldTok",
                expiresAt := some 10, createdAt := 0 })).result =
      .error ZToken.AccessTokenError.tokenExpired ∧
     (ZToken.getAccessToken 0 (fun _ => some ⟨"newTok", none, some 100⟩) 11
        (some { identityClaims := [], accessToken := some "oldTok",
                expiresAt := some 10, createdAt := 0 })).refreshCalls = 0) :=
  ⟨(getAccessToken_expired_behaviour 0 (fun _ => some ⟨"newTok", none, some 100⟩) 11
      { identityClaims := [], accessToken := some "oldTok",
        refreshToken := some "rt", expiresAt := some 10, createdAt := 0 }
      "oldTok" 10 rfl rfl (by decide)).1 "rt" ⟨"newTok", none, some 100⟩ rfl rfl,
   (getAccessToken_expired_behaviour 0 (fun _ => some ⟨"newTok", none, some 100⟩) 11
      { identityClaims := [], accessToken := some "oldTok",
        expiresAt := some 10, createdAt := 0 }
      "oldTok" 10 rfl rfl (by decide)).2 rfl⟩

/-- C5: every sequence of cookie-writing `set` calls on a response appends
exactly the serialized cookies, in call order, after any pre-existing
`Set-Cookie` values (overwriting none of them), and mutates no other part
of the response. -/
theorem cookies_set_appends_and_preserves_rest {ρ : Type}
    (res : ZCookies.ServerResponse ρ)
    (calls : List (String × String × ZCookies.CookieSerializeOptions)) :
    (ZCookies.setAll res calls).rest = res.rest ∧
    ZCookies.headerList (ZCookies.setAll res calls).setCookieHeader =
      ZCookies.headerList res.setCookieHeader
        ++ calls.map (fun c => ZCookies.serialize c.1 c.2.1 c.2.2) := by
  induction calls generalizing res with
  | nil => exact ⟨rfl, by simp [ZCookies.setAll]⟩
  | cons c cs ih =>
    obtain ⟨h1, h2⟩ := ih (ZCookies.set res c.1 c.2.1 c.2.2)
    have hstep : ZCookies.headerList (ZCookies.set res c.1 c.2.1 c.2.2).setCookieHeader =
        ZCookies.headerList res.setCookieHeader ++ [ZCookies.serialize c.1 c.2.1 c.2.2] := rfl
    constructor
    · simpa [ZCookies.setAll, List.foldl_cons] using h1
    · have : ZCookies.headerList (ZCookies.setAll res (c :: cs)).setCookieHeader =
          ZCookies.headerList (ZCookies.set res c.1 c.2.1 c.2.2).setCookieHeader
            ++ cs.map (fun c => ZCookies.serialize c.1 c.2.1 c.2.2) := by
        simpa [ZCookies.setAll, List.foldl_cons] using h2
      rw [this, hstep, List.append_assoc, List.map_cons]
      rfl

/-- Counterexample for C3: the named exports resolve the module singleton,
so the `SessionCache` used for the first request (from empty module state)
is the very same instance used for the next request — a process-wide
SessionCache *is* shared between two different requests' operations,
contrary to the claim. -/
theorem sessionCache_shared_across_requests :
    (ZInstance.sessionCacheForRequest none 0).1 =
      (ZInstance.sessionCacheForRequest
        (ZInstance.sessionCacheForRequest none 0).2.1
        (ZInstance.sessionCacheForRequest none 0).2.2).1 ∧
    (ZInstance.sessionCacheForRequest none 0).2.1 ≠ none := by
  exact ⟨rfl, by decide⟩

/-- C3 (amended): session memoization is keyed by the request object —
one request's memoized entry is invisible to a lookup for a different
request — but the `SessionCache` instance itself is process-wide: once the
module-level singleton exists, `getInstance` returns that same instance
(hence the same SessionCache) for every subsequent request without
allocating. -/
theorem singleton_shared_memo_request_scoped {σ : Type} :
    (∀ (i : ZInstance.SDKInstance) (ctr : Nat),
      ZInstance.getInstance (some i) ctr = (i, some i, ctr)) ∧
    (∀ (t : ZInstance.MemoTable σ) (r1 r2 : Nat) (v : σ), r1 ≠ r2 →
      ZInstance.memoLookup (ZInstance.memoInsert t r1 v) r2 =
        ZInstance.memoLookup t r2) := by
  constructor
  · intro i ctr
    rfl
  · intro t r1 r2 v h
    simp [ZInstance.memoInsert, ZInstance.memoLookup, h]

/-- Witness for C3 (amended): concrete singleton reuse and a concrete
fresh-request cache miss. -/
theorem singleton_shared_memo_request_scoped_check :
    ZInstance.getInstance (some ⟨0, 1, 2⟩) 3 = (⟨0, 1, 2⟩, some ⟨0, 1, 2⟩, 3) ∧
    ZInstance.memoLookup
        (ZInstance.memoInsert ([] : ZInstance.MemoTable Nat) 1 5) 2 = none :=
  ⟨(singleton_shared_memo_request_scoped (σ := Nat)).1 ⟨0, 1, 2⟩ 3,
   ((singleton_shared_memo_request_scoped (σ := Nat)).2 [] 1 2 5 (by decide)).trans rfl⟩

/-- Counterexample for C6: `routes.callback` is merged with JS `||`, so an
explicitly supplied empty-string callback is overridden by the
environment value — the explicitly passed parameter is *not* the one
present in the resulting configuration. -/
theorem explicit_empty_callback_overridden :
    (ZConfig.getConfig { ZAUTH_CALLBACK := some "/env-cb" }
        { routes := some { callback := some "" } }).1.routes.callback = some "/env-cb" ∧
    (some "/env-cb" : Option String) ≠ some "" := by
  exact ⟨by decide, by decide⟩

/-- C6 (amended): when an option is supplied both through the environment
and as an explicit parameter, the explicit parameter wins for every field
merged by object spread (all top-level fields and the nested `session`,
`cookie` and `authorizationParams` fields); for the fields merged with JS
`||` (`routes.callback`, `routes.postLogoutRedirect`, the Next-layer
login route, and `organization`) a *non-empty* explicit parameter wins,
while an empty-string one falls back to the environment. -/
theorem explicit_params_override_env (env : ZConfig.EnvVars)
    (sec iss bur cid csec alg sname dom pth ssite aud scp rtyp rmode cb plr lg org : String)
    (ct ht rd : Int) (tel idp zal leg rol trans ho secu : Bool)
    (ad : ZConfig.BoolOrNum) (icf : List String)
    (hcb : cb ≠ "") (hplr : plr ≠ "") (hlg : lg ≠ "") (horg : org ≠ "") :
    let params : ZConfig.ConfigParameters :=
      { secret := some sec, issuerBaseURL := some iss, baseURL := some bur,
        clientID := some cid, clientSecret := some csec,
        clockTolerance := some ct, httpTimeout := some ht,
        enableTelemetry := some tel, idpLogout := some idp, zAuthLogout := some zal,
        idTokenSigningAlg := some alg, legacySameSiteCookie := some leg,
        identityClaimFilter := some icf, organization := some org,
        authorizationParams := some { response_type := some rtyp, response_mode := some rmode,
                                      scope := some scp, audience := some aud },
        session := some { name := some sname, rolling := some rol, rollingDuration := some rd,
                          absoluteDuration := some ad,
                          cookie := some { domain := some dom, path := some pth,
                                           transient := some trans, httpOnly := some ho,
                                           secure := some secu, sameSite := some ssite } },
        routes := some { callback := some cb, postLogoutRedirect := some plr, login := some lg } }
    let bc := (ZConfig.getConfig env params).1
    let nc := (ZConfig.getConfig env params).2
    bc.secret = some sec ∧ bc.issuerBaseURL = some iss ∧ bc.baseURL = some bur ∧
    bc.clientID = some cid ∧ bc.clientSecret = some csec ∧
    bc.clockTolerance = some ct ∧ bc.httpTimeout = some ht ∧
    bc.enableTelemetry = some tel ∧ bc.idpLogout = some idp ∧ bc.zAuthLogout = some zal ∧
    bc.idTokenSigningAlg = some alg ∧ bc.legacySameSiteCookie = some leg ∧
    bc.identityClaimFilter = some icf ∧
    bc.authorizationParams.response_type = some rtyp ∧
    bc.authorizationParams.response_mode = some rmode ∧
    bc.authorizationParams.scope = some scp ∧
    bc.authorizationParams.audience = some aud ∧
    bc.session.name = some sname ∧ bc.session.rolling = some rol ∧
    bc.session.rollingDuration = some rd ∧ bc.session.absoluteDuration = some ad ∧
    bc.session.cookie.domain = some dom ∧ bc.session.cookie.path = some pth ∧
    bc.session.cookie.transient = some trans ∧ bc.session.cookie.httpOnly = some ho ∧
    bc.session.cookie.secure = some secu ∧ bc.session.cookie.sameSite = some ssite ∧
    bc.routes.callback = some cb ∧ bc.routes.postLogoutRedirect = some plr ∧
    nc.loginRoute = some lg ∧ nc.organization = some org := by
  simp [ZConfig.getConfig, ZConfig.overrideOpt, ZConfig.jsOrStr,
    ZConfig.sessionParams, ZConfig.sessionCookieParams, ZConfig.authParamsOf,
    ZConfig.routesParamsOf, ZConfig.getLoginUrl, hcb, hplr, hlg, horg]

/-- Witness for C6 (amended): a fully supplied parameter set over a fully
populated environment yields the explicit values. -/
theorem explicit_params_override_env_check :
    (ZConfig.getConfig
        { ZAUTH_SECRET := some "esec", ZAUTH_CALLBACK := some "/e-cb",
          ZAUTH_ORGANIZATION := some "eorg" }
        { secret := some "psec", issuerBaseURL := some "pi", baseURL := some "pb",
          clientID := some "pc", clientSecret := some "pcs",
          clockTolerance := some 1, httpTimeout := some 2,
          enableTelemetry := some true, idpLogout := some false, zAuthLogout := some false,
          idTokenSigningAlg := some "palg", legacySameSiteCookie := some true,
          identityClaimFilter := some ["aud"], organization := some "porg",
          authorizationParams := some { response_type := some "prt", response_mode := some "prm",
                                        scope := some "ps", audience := some "pa" },
          session := some { name := some "pn", rolling := some true, rollingDuration := some 3,
                            absoluteDuration := some (ZConfig.BoolOrNum.b false),
                            cookie := some { domain := some "pd", path := some "pp",
                                             transient := some false, httpOnly := some true,
                                             secure := some false, sameSite := some "lax" } },
          routes := some { callback := some "/p-cb", postLogoutRedirect := some "/p-plr",
                           login := some "/p-lg" } }).1.secret = some "psec" ∧
    (ZConfig.getConfig
        { ZAUTH_SECRET := some "esec", ZAUTH_CALLBACK := some "/e-cb",
          ZAUTH_ORGANIZATION := some "eorg" }
        { secret := some "psec", issuerBaseURL := some "pi", baseURL := some "pb",
          clientID := some "pc", clientSecret := some "pcs",
          clockTolerance := some 1, httpTimeout := some 2,
          enableTelemetry := some true, idpLogout := some false, zAuthLogout := some false,
          idTokenSigningAlg := some "palg", legacySameSiteCookie := some true,
          identityClaimFilter := some ["aud"], organization := some "porg",
          authorizationParams := some { response_type := some "prt", response_mode := some "prm",
                                        scope := some "ps", audience := some "pa" },
          session := some { name := some "pn", rolling := some true, rollingDuration := some 3,
                            absoluteDuration := some (ZConfig.BoolOrNum.b false),
                            cookie := some { domain := some "pd", path := some "pp",
                                             transient := some false, httpOnly := some true,
                                             secure := some false, sameSite := some "lax" } },
          routes := some { callback := some "/p-cb", postLogoutRedirect := some "/p-plr",
                           login := some "/p-lg" } }).1.routes.callback = some "/p-cb" ∧
    (ZConfig.getConfig
        { ZAUTH_SECRET := some "esec", ZAUTH_CALLBACK := some "/e-cb",
          ZAUTH_ORGANIZATION := some "eorg" }
        { secret := some "psec", issuerBaseURL := some "pi", baseURL := some "pb",
          clientID := some "pc", clientSecret := some "pcs",
          clockTolerance := some 1, httpTimeout := some 2,
          enableTelemetry := some true, idpLogout := some false, zAuthLogout := some false,
          idTokenSigningAlg := some "palg", legacySameSiteCookie := some true,
          identityClaimFilter := some ["aud"], organization := some "porg",
          authorizationParams := some { response_type := some "prt", response_mode := some "prm",
                                        scope := some "ps", audience := some "pa" },
          session := some { name := some "pn", rolling := some true, rollingDuration := some 3,
                            absoluteDuration := some (ZConfig.BoolOrNum.b false),
                            cookie := some { domain := some "pd", path := some "pp",
                                             transient := some false, httpOnly := some true,
                                             secure := some false, sameSite := some "lax" } },
          routes := some { callback := some "/p-cb", postLogoutRedirect := some "/p-plr",
                           login := some "/p-lg" } }).2.organization = some "porg" := by
  have h := explicit_params_override_env
    { ZAUTH_SECRET := some "esec", ZAUTH_CALLBACK := some "/e-cb",
      ZAUTH_ORGANIZATION := some "eorg" }
    "psec" "pi" "pb" "pc" "pcs" "palg" "pn" "pd" "pp" "lax" "pa" "ps" "prt" "prm"
    "/p-cb" "/p-plr" "/p-lg" "porg" 1 2 3 true false false true true false true false
    (ZConfig.BoolOrNum.b false) ["aud"]
    (by decide) (by decide) (by decide) (by decide)
  exact ⟨h.1, h.2.2.2.2.2.2.2.2.2.2.2.2.2.2.2.2.2.2.2.2.2.2.2.2.2.2.2.1,
    h.2.2.2.2.2.2.2.2.2.2.2.2.2.2.2.2.2.2.2.2.2.2.2.2.2.2.2.2.2.2⟩

/-- C7: with IdP-logout enabled and a Zeus issuer, the end-session URL the
logout flow redirects to has the proprietary shape
`<issuer>/v2/logout?returnTo=<postLogoutRedirect>&client_id=<clientID>`,
even when discovery reports no `end_session_endpoint`. -/
theorem endSessionUrl_zeus_shape (cfg : ZLogout.ClientConfig)
    (meta : ZLogout.IssuerMetadata) (r : String)
    (hidp : cfg.idpLogout = true)
    (hz : ZLogout.isZeusIssuer meta.issuer = true)
    (_hend : meta.end_session_endpoint = none) :
    ZLogout.endSessionUrl cfg meta r =
      some (ZLogout.stripTrailingSlash meta.issuer ++ "/v2/logout?returnTo=" ++ r
        ++ "&client_id=" ++ cfg.clientID) := by
  simp [ZLogout.endSessionUrl, hidp, hz]

/-- Witness for C7: the test fixture's inputs
(`src/tests/zsession/client.test.ts` lines 103-116) produce exactly the
URL the test expects. -/
theorem endSessionUrl_zeus_shape_check :
    (⟨"__test_client_id__", true⟩ : ZLogout.ClientConfig).idpLogout = true ∧
    ZLogout.isZeusIssuer "https://zeus.zidentity.io/" = true ∧
    ZLogout.endSessionUrl ⟨"__test_client_id__", true⟩
        ⟨"https://zeus.zidentity.io/", none⟩ "foo" =
      some "https://zeus.zidentity.io/v2/logout?returnTo=foo&client_id=__test_client_id__" :=
  ⟨rfl, by decide,
    (endSessionUrl_zeus_shape ⟨"__test_client_id__", true⟩
      ⟨"https://zeus.zidentity.io/", none⟩ "foo" rfl (by decide) rfl).trans (by decide)⟩

/-- C8: the `bool` helper yields the supplied default for an undefined or
empty-string value; a non-empty string whose trimmed lowercasing is one of
`"n"`, `"no"`, `"false"`, `"0"`, `"off"` yields `false`; and every other
non-empty string yields `true`. -/
theorem bool_env_parsing (d : Option Bool) :
    (ZConfig.bool none d = d ∧ ZConfig.bool (some "") d = d) ∧
    (∀ s : String, s ≠ "" →
      ZConfig.FALSEY.contains (ZConfig.jsTrim (ZConfig.jsToLower s)) = true →
      ZConfig.bool (some s) d = some false) ∧
    (∀ s : String, s ≠ "" →
      ZConfig.FALSEY.contains (ZConfig.jsTrim (ZConfig.jsToLower s)) = false →
      ZConfig.bool (some s) d = some true) := by
  refine ⟨⟨rfl, by simp [ZConfig.bool]⟩, fun s hs hf => ?_, fun s hs hf => ?_⟩ <;>
    · simp only [ZConfig.bool]
      rw [if_neg hs, hf]
      rfl

/-- Witness for C8: `" NO "` parses to `false` and `"yes"` to `true`. -/
theorem bool_env_parsing_check :
    ZConfig.bool (some " NO ") none = some false ∧
    ZConfig.bool (some "yes") (some false) = some true :=
  ⟨(bool_env_parsing none).2.1 " NO " (by decide) (by decide),
   (bool_env_parsing (some false)).2.2 "yes" (by decide) (by decide)⟩

/-- C9: when neither flag is passed explicitly, `getConfig` derives both
`idpLogout` and `zAuthLogout` from the single environment variable
`ZAUTH_IDP_LOGOUT` (each defaulting to `true` when it is unset), and the
resulting `zAuthLogout` depends on no other environment variable: any two
environments agreeing on `ZAUTH_IDP_LOGOUT` produce the same
`zAuthLogout`. -/
theorem idpLogout_zAuthLogout_single_env (env env' : ZConfig.EnvVars)
    (params : ZConfig.ConfigParameters)
    (h1 : params.idpLogout = none) (h2 : params.zAuthLogout = none)
    (hsame : env'.ZAUTH_IDP_LOGOUT = env.ZAUTH_IDP_LOGOUT) :
    (ZConfig.getConfig env params).1.idpLogout =
        ZConfig.bool env.ZAUTH_IDP_LOGOUT (some true) ∧
    (ZConfig.getConfig env params).1.zAuthLogout =
        ZConfig.bool env.ZAUTH_IDP_LOGOUT (some true) ∧
    (env.ZAUTH_IDP_LOGOUT = none →
      (ZConfig.getConfig env params).1.idpLogout = some true ∧
      (ZConfig.getConfig env params).1.zAuthLogout = some true) ∧
    (ZConfig.getConfig env' params).1.zAuthLogout =
        (ZConfig.getConfig env params).1.zAuthLogout := by
  refine ⟨?_, ?_, ?_, ?_⟩
  · simp [ZConfig.getConfig, ZConfig.overrideOpt, h1]
  · simp [ZConfig.getConfig, ZConfig.overrideOpt, h2]
  · intro hunset
    simp [ZConfig.getConfig, ZConfig.overrideOpt, h1, h2, hunset, ZConfig.bool]
  · simp [ZConfig.getConfig, ZConfig.overrideOpt, h2, hsame]

/-- Witness for C9: with `ZAUTH_IDP_LOGOUT` unset and no explicit flags,
both flags come out `true`, and an unrelated environment change leaves
`zAuthLogout` untouched. -/
theorem idpLogout_zAuthLogout_single_env_check :
    (ZConfig.getConfig {} {}).1.idpLogout = ZConfig.bool none (some true) ∧
    (ZConfig.getConfig {} {}).1.zAuthLogout = ZConfig.bool none (some true) ∧
    ((none : Option String) = none →
      (ZConfig.getConfig {} {}).1.idpLogout = some true ∧
      (ZConfig.getConfig {} {}).1.zAuthLogout = some true) ∧
    (ZConfig.getConfig { ZAUTH_SECRET := some "other" } {}).1.zAuthLogout =
      (ZConfig.getConfig {} {}).1.zAuthLogout :=
  idpLogout_zAuthLogout_single_env {} { ZAUTH_SECRET := some "other" } {} rfl rfl rfl

/-- C10: when `ZAUTH_BASE_URL` is set to a non-empty value that starts with
neither `http://` nor `https://` and no explicit `baseURL` parameter is
given, `getConfig` prefixes it with `https://`; an explicitly passed
`baseURL` is used verbatim, with no prefixing, whatever the environment. -/
theorem baseURL_env_prefixing :
    (∀ (env : ZConfig.EnvVars) (params : ZConfig.ConfigParameters) (s : String),
      env.ZAUTH_BASE_URL = some s → s ≠ "" →
      ZConfig.jsStartsWith s "http://" = false →
      ZConfig.jsStartsWith s "https://" = false →
      params.baseURL = none →
      (ZConfig.getConfig env params).1.baseURL = some ("https://" ++ s)) ∧
    (∀ (env : ZConfig.EnvVars) (params : ZConfig.ConfigParameters) (b : String),
      params.baseURL = some b →
      (ZConfig.getConfig env params).1.baseURL = some b) := by
  constructor
  · intro env params s hset hne hh1 hh2 hp
    simp [ZConfig.getConfig, ZConfig.overrideOpt, ZConfig.jsBaseURL, hset, hne, hh1, hh2, hp]
  · intro env params b hp
    simp [ZConfig.getConfig, ZConfig.overrideOpt, hp]

/-- Witness for C10: a bare domain in the environment gains an `https://`
prefix, while an explicit `http://` base URL passes through verbatim. -/
theorem baseURL_env_prefixing_check :
    (ZConfig.getConfig { ZAUTH_BASE_URL := some "example.org" } {}).1.baseURL =
      some "https://example.org" ∧
    (ZConfig.getConfig { ZAUTH_BASE_URL := some "example.org" }
        { baseURL := some "http://localhost:3000" }).1.baseURL =
      some "http://localhost:3000" :=
  ⟨baseURL_env_prefixing.1 { ZAUTH_BASE_URL := some "example.org" } {} "example.org"
      rfl (by decide) (by decide) (by decide) rfl,
   baseURL_env_prefixing.2 { ZAUTH_BASE_URL := some "example.org" }
      { baseURL := some "http://localhost:3000" } "http://localhost:3000" rfl⟩
